import Mathlib

set_option maxRecDepth 8192

/-!
Verification of the Multi-language RAG Document Assistant core:
a shallow embedding of the upload/query pipeline of `src/app/main.py`,
the retrieval-augmented chain of `src/app/rag/chain.py`, and the
message handling of `src/telegram/bot.py`, together with theorems
settling the specified properties.
-/

namespace RAGAssist

/-- A retrieved chunk, mirroring the langchain `Document` objects as used in
`src/app/rag/chain.py`: `page_content` plus the two metadata keys the code
reads or writes (`source`, set by the loader, and `user_id`, set by the
upload endpoint when a tenant is given). An absent key is `none`. -/
structure Doc where
  page_content : String
  source : Option String
  user_id : Option String
deriving DecidableEq, Repr

/-- `doc.metadata.get ("source", "unknown")` of chain.py lines 57 and 126. -/
def getSource (d : Doc) : String :=
  d.source.getD "unknown"

/-- One entry of the `sources` list built by `RAGChain.ask`
(chain.py lines 130 to 134), matching the `Source` model of
`src/app/models/schemas.py`. -/
structure Source where
  id : Nat
  source : String
  preview : String
deriving DecidableEq, Repr

/-- One numbered context entry of `RAGChain._build_context` (chain.py line 59):
the string `[i] Source: <source>\n<page_content>`. -/
def contextEntry (i : Nat) (d : Doc) : String :=
  "[" ++ toString i ++ "] Source: " ++ getSource d ++ "\n" ++ d.page_content

def buildContextParts : Nat → List Doc → List String
  | _, [] => []
  | i, d :: rest => contextEntry i d :: buildContextParts (i + 1) rest

/-- `RAGChain._build_context` (chain.py lines 53 to 62): numbers the docs
from 1 in retrieval order and joins the entries with blank lines. -/
def build_context (docs : List Doc) : String :=
  String.intercalate "\n\n" (buildContextParts 1 docs)

/-- The language rule chosen by `RAGChain.ask` (chain.py lines 80 to 88). -/
def langRule (language : String) : String :=
  if language = "English" then
    "Answer strictly in English."
  else if language = "Русский" then
    "Отвечай строго на русском языке."
  else
    "Answer in the same language as the user's question. If context is English and question is Russian, translate."

/-- `file.filename.lower().endswith((".txt", ".pdf"))` of main.py line 54,
over the character list of the filename. -/
def supportedFilename (name : String) : Bool :=
  let lowered := name.data.map Char.toLower
  List.isSuffixOf (String.data ".txt") lowered || List.isSuffixOf (String.data ".pdf") lowered

/-- The source-deduplication loop of `RAGChain.ask` (chain.py lines 121 to
135): `seen` is the set of already-cited source names, `sid` the next
citation id; a doc whose source was already seen is skipped, otherwise it is
emitted with the running id and its `page_content[:200]` preview. -/
def buildSourcesAux : List Doc → List String → Nat → List Source
  | [], _, _ => []
  | d :: rest, seen, sid =>
    let src := getSource d
    if src ∈ seen then
      buildSourcesAux rest seen sid
    else
      { id := sid, source := src, preview := d.page_content.take 200 } ::
        buildSourcesAux rest (src :: seen) (sid + 1)

/-- The `sources` list returned by `RAGChain.ask` (chain.py lines 121 to 135):
the dedup loop started with `seen = set()` and `sid = 1`. -/
def buildSources (docs : List Doc) : List Source :=
  buildSourcesAux docs [] 1

/-- The vector store handle. Its entry list stands for the persisted
collection content; the similarity ordering of the backend is abstracted as
the stored order (none of the verified properties depend on the metric). -/
structure VectorStore where
  entries : List Doc
deriving DecidableEq, Repr

/-- Whether a stored doc matches a tenant metadata filter: `none` matches
everything, `some t` matches docs whose `user_id` metadata equals `t`. -/
def matchesFilter (filter : Option String) (d : Doc) : Bool :=
  match filter with
  | none => true
  | some t => d.user_id = some t

/-- Modelled from the spec: `similarity_search(query_text, k, filter?)` of the
Vector Index Manager (its implementation, `src/app/rag/embeddings.py`, is not
under src/) returns up to `k` nearest entries, optionally restricted to the
entries matching `filter`. Nearness is abstracted as stored order. -/
def similarity_search (vs : VectorStore) (_query : String) (k : Nat)
    (filter : Option String) : List Doc :=
  (vs.entries.filter (matchesFilter filter)).take k

/-- The fixed part of the system prompt of `RAGChain.ask` before the language
rule (chain.py lines 90 to 97, the f-string up to `- {lang_rule}`). -/
def systemPromptHead : String :=
  "\n    You are a professional RAG assistant.\n\n    Rules:\n    - Use ONLY the provided context\n    - Do NOT hallucinate\n    - Cite sources using [number]\n    - "

/-- The tail of the system prompt f-string after the language rule
(chain.py line 98). -/
def systemPromptTail : String :=
  "\n    "

/-- The full system prompt of `RAGChain.ask` (chain.py lines 90 to 98). -/
def systemPrompt (language : String) : String :=
  systemPromptHead ++ langRule language ++ systemPromptTail

/-- The user prompt of `RAGChain.ask` (chain.py lines 100 to 108). -/
def userPrompt (context question : String) : String :=
  "\n    Context:\n    " ++ context ++ "\n\n    Question:\n    " ++ question ++
    "\n\n    Answer:\n    "

/-- The result of one `ask` call. `modelCalls` instruments the embedding: it
lists the (system prompt, user prompt) pair of every chat-completion request
issued during the call, so that not invoking the generative model is the
statement `modelCalls = []`. -/
structure AskResult where
  answer : String
  sources : List Source
  modelCalls : List (String × String)
deriving DecidableEq, Repr

/-- `RAGChain` state (chain.py lines 29 to 48): the store handle and `top_k`
(default 3). The OpenAI client, model name and temperature play no role in
the verified properties and are omitted. -/
structure RAGChain where
  vectorstore : VectorStore
  top_k : Nat := 3
deriving DecidableEq, Repr

/-- `RAGChain.__init__` (chain.py lines 30 to 48): raises
`ValueError("OPENAI_API_KEY not found")` when the `OPENAI_API_KEY`
environment variable is unset; `apiKey` says whether it is set. -/
def RAGChain.init (apiKey : Bool) (vs : VectorStore) : Except String RAGChain :=
  if apiKey then Except.ok { vectorstore := vs } else Except.error "OPENAI_API_KEY not found"

/-- `RAGChain.ask` (chain.py lines 67 to 140). `gen` abstracts the OpenAI
chat completion (system prompt and user prompt to answer text). The Python
signature is `ask(self, question, language = "Auto")`: it accepts no tenant
argument, and its `similarity_search` call on lines 68 to 70 passes only the
question and `k`, hence the `none` filter here. (The caller in main.py lines
132 to 136 passes a `user_id` keyword that this signature does not accept.) -/
def RAGChain.ask (c : RAGChain) (gen : String → String → String)
    (question : String) (language : String := "Auto") : AskResult :=
  let docs := similarity_search c.vectorstore question c.top_k none
  if docs.isEmpty then
    { answer := "No relevant information found.", sources := [], modelCalls := [] }
  else
    let context := build_context docs
    let sp := systemPrompt language
    let up := userPrompt context question
    { answer := (gen sp up).trim, sources := buildSources docs, modelCalls := [(sp, up)] }

/-- Spec-side description of step 5 of §4.4 (first half): keep each retrieved
chunk whose `source_id` has not appeared earlier in the retrieval result;
`seen` collects the source names already passed. -/
def firstOccAux : List Doc → List String → List Doc
  | [], _ => []
  | d :: rest, seen =>
    if getSource d ∈ seen then firstOccAux rest seen
    else d :: firstOccAux rest (getSource d :: seen)

/-- Spec-side description: the first-seen occurrences of the sources of a
retrieval result, in retrieval order. -/
def firstOcc (docs : List Doc) : List Doc :=
  firstOccAux docs []

/-- Spec-side description of step 5 of §4.4 (second half): number a list of
first occurrences with consecutive citation ids starting at `sid`, each entry
previewing that occurrence truncated to 200 characters. -/
def numberFrom : Nat → List Doc → List Source
  | _, [] => []
  | sid, d :: rest =>
    { id := sid, source := getSource d, preview := d.page_content.take 200 } ::
      numberFrom (sid + 1) rest

/-- Spec-side source list of §4.4 step 5, written from the words of the spec:
iterate retrieved chunks in retrieval order, deduplicate by source, assign
citation ids 1..n in first-seen order, preview from the first occurrence. -/
def sourcesSpec (docs : List Doc) : List Source :=
  numberFrom 1 (firstOcc docs)

/-- The persisted collection: `none` when no collection exists at the
configured location, `some l` when a collection with entries `l` exists
(possibly empty). -/
abbrev Storage := Option (List Doc)

/-- Outcome of loading the collection. -/
inductive LoadResult where
  | failure
  | loaded (entries : List Doc)
deriving DecidableEq, Repr

/-- Modelled from the spec: `load(collection_name)` of the Vector Index
Manager (`src/app/rag/embeddings.py` is not under src/) opens an existing
persistent index and fails with `IndexNotFoundError` if none exists at the
configured location; it never creates one. -/
def load_vectorstore (storage : Storage) : LoadResult :=
  match storage with
  | none => LoadResult.failure
  | some l => LoadResult.loaded l

/-- Which branch of the vectorstore logic of main.py lines 89 to 105 ran. -/
inductive IndexAction where
  | createNew
  | addToExisting
deriving DecidableEq, Repr

/-- The vectorstore logic of `upload_document` (main.py lines 89 to 105):
try `load`; on success, `create` when `_collection.count() == 0` and `add`
otherwise; on exception, fall back to `create`. Returns the branch taken and
the collection content afterwards. -/
def uploadIndexLogic (storage : Storage) (chunks : List Doc) :
    IndexAction × List Doc :=
  match load_vectorstore storage with
  | LoadResult.failure => (IndexAction.createNew, chunks)
  | LoadResult.loaded l =>
    if l.length = 0 then (IndexAction.createNew, chunks)
    else (IndexAction.addToExisting, l ++ chunks)

/-- `MAX_FILE_SIZE = 30 * 1024 * 1024` of main.py line 20. -/
def MAX_FILE_SIZE : Nat := 30 * 1024 * 1024

/-- The metadata tagging of main.py lines 85 to 87: when a `user_id` is
given, every chunk receives it as `user_id` metadata. -/
def tagChunks : Option String → List Doc → List Doc
  | none, chunks => chunks
  | some u, chunks => chunks.map fun d => { d with user_id := some u }

/-- The error responses `upload_document` can raise: the three HTTP 400
validations of main.py lines 54 to 73 and the `ValueError` escaping from
`RAGChain.__init__` on line 107. -/
inductive UploadError where
  | unsupportedType
  | emptyFile
  | tooLarge
  | apiKeyMissing
deriving DecidableEq, Repr

/-- `upload_document` (main.py lines 47 to 112). `size` is `len(contents)`;
`chunks` is the output of the loader and chunker on the saved file (both live
outside src/ and are applied by this caller only after validation passes).
The pair returned is the HTTP outcome (chunk count on success) and the
collection content afterwards. -/
def upload_document (apiKey : Bool) (filename : String) (size : Nat)
    (chunks : List Doc) (user_id : Option String) (storage : Storage) :
    Except UploadError Nat × Storage :=
  if supportedFilename filename = false then
    (Except.error UploadError.unsupportedType, storage)
  else if size = 0 then
    (Except.error UploadError.emptyFile, storage)
  else if MAX_FILE_SIZE < size then
    (Except.error UploadError.tooLarge, storage)
  else
    let tagged := tagChunks user_id chunks
    let storage2 : Storage := some (uploadIndexLogic storage tagged).2
    match RAGChain.init apiKey { entries := (uploadIndexLogic storage tagged).2 } with
    | Except.ok _ => (Except.ok chunks.length, storage2)
    | Except.error _ => (Except.error UploadError.apiKeyMissing, storage2)

/-- The module-level globals `vectorstore` and `rag_chain` of main.py
lines 17 to 18. -/
structure AppGlobals where
  vectorstore : Option VectorStore
  rag_chain : Option RAGChain
deriving DecidableEq, Repr

/-- Outcome of the `/query` endpoint. -/
inductive QueryOutcome where
  | noDocuments
  | answered (r : AskResult)
deriving DecidableEq, Repr

/-- `query_rag` (main.py lines 114 to 136): lazily load the collection when
the `vectorstore` global is unset (swallowing any exception; note the
`vectorstore` assignment survives when the subsequent `RAGChain` construction
raises), answer HTTP 400 "No documents uploaded yet" when `rag_chain` is
still unset, and otherwise delegate to `ask`. Returns the outcome, the
globals afterwards, and the storage afterwards (the path performs no write).
The actual delegation passes a `user_id` keyword that `ask` does not accept;
the embedding models the retrieval behaviour `ask` itself defines. -/
def query_rag (apiKey : Bool) (storage : Storage) (g : AppGlobals)
    (gen : String → String → String) (question language : String) :
    QueryOutcome × AppGlobals × Storage :=
  let g1 :=
    match g.vectorstore with
    | some _ => g
    | none =>
      match load_vectorstore storage with
      | LoadResult.failure => g
      | LoadResult.loaded l =>
        match RAGChain.init apiKey { entries := l } with
        | Except.ok c => { vectorstore := some { entries := l }, rag_chain := some c }
        | Except.error _ => { g with vectorstore := some { entries := l } }
  match g1.rag_chain with
  | none => (QueryOutcome.noDocuments, g1, storage)
  | some c => (QueryOutcome.answered (c.ask gen question language), g1, storage)

/-- `LANGUAGES` of bot.py lines 28 to 31. -/
def LANGUAGES : List String :=
  ["Auto", "English", "Русский", "Қазақша",
   "Français", "Deutsch", "Español", "中文", "日本語"]

/-- What one incoming text message makes the bot do: record a language
selection and reply with the given confirmation, or POST the given
question/language payload to the backend `/query` endpoint. -/
inductive BotAction where
  | setLanguage (confirmation : String)
  | queryBackend (question language : String)
deriving DecidableEq, Repr

/-- `handle_message` (bot.py lines 99 to 140): a text equal to one of the
nine `LANGUAGES` entries is stored as the language selection and answered
with a confirmation, returning before any backend call; any other text is
sent to `/query` with the stored language (default "Auto"). Returns the
action and the stored language afterwards. -/
def handle_message (text : String) (storedLanguage : Option String) :
    BotAction × Option String :=
  if text ∈ LANGUAGES then
    (BotAction.setLanguage ("Language set to: " ++ text), some text)
  else
    (BotAction.queryBackend text (storedLanguage.getD "Auto"), storedLanguage)

/-- A chunk of document A, used as a concrete test fixture. -/
def chunkA1 : Doc := { page_content := "first chunk of A", source := some "A.txt", user_id := none }

/-- A second chunk of the same document A. -/
def chunkA2 : Doc := { page_content := "second chunk of A", source := some "A.txt", user_id := none }

/-- A chunk of document B. -/
def chunkB : Doc := { page_content := "only chunk of B", source := some "B.txt", user_id := none }

/-- A chunk uploaded with tenant t1. -/
def tenantDocA : Doc := { page_content := "alpha", source := some "docA.txt", user_id := some "t1" }

/-- A chunk uploaded with tenant t2. -/
def tenantDocB : Doc := { page_content := "beta", source := some "docB.txt", user_id := some "t2" }

/-- A store holding one chunk of tenant t1 and one chunk of tenant t2. -/
def tenantStore : VectorStore := { entries := [tenantDocA, tenantDocB] }

/-- A constant stand-in for the chat-completion provider. -/
def constGen : String → String → String := fun _ _ => "model output"

end RAGAssist

namespace RAGAssist

theorem buildSourcesAux_eq (docs : List Doc) :
    ∀ seen sid, buildSourcesAux docs seen sid = numberFrom sid (firstOccAux docs seen) := by
  induction docs with
  | nil => intro seen sid; rfl
  | cons d rest ih =>
    intro seen sid
    by_cases h : getSource d ∈ seen
    · simp [buildSourcesAux, firstOccAux, h, ih]
    · simp [buildSourcesAux, firstOccAux, h, ih, numberFrom]

theorem numberFrom_length (l : List Doc) : ∀ sid, (numberFrom sid l).length = l.length := by
  induction l with
  | nil => intro sid; rfl
  | cons d rest ih => intro sid; simp [numberFrom, ih]

theorem numberFrom_map_id (l : List Doc) :
    ∀ sid, (numberFrom sid l).map Source.id = List.range' sid l.length := by
  induction l with
  | nil => intro sid; rfl
  | cons d rest ih => intro sid; simp [numberFrom, List.range', ih]

theorem numberFrom_map_source (l : List Doc) :
    ∀ sid, (numberFrom sid l).map Source.source = l.map getSource := by
  induction l with
  | nil => intro sid; rfl
  | cons d rest ih => intro sid; simp [numberFrom, ih]

theorem firstOccAux_not_mem_seen (docs : List Doc) :
    ∀ seen, ∀ s ∈ (firstOccAux docs seen).map getSource, s ∉ seen := by
  induction docs with
  | nil => intro seen s hs; simp [firstOccAux] at hs
  | cons d rest ih =>
    intro seen s hs
    by_cases h : getSource d ∈ seen
    · exact ih seen s (by simpa [firstOccAux, h] using hs)
    · simp [firstOccAux, h] at hs
      rcases hs with hs | hs
      · subst hs; exact h
      · have := ih (getSource d :: seen) s (by simpa using hs)
        intro hmem
        exact this (List.mem_cons_of_mem _ hmem)

theorem firstOccAux_sources_nodup (docs : List Doc) :
    ∀ seen, ((firstOccAux docs seen).map getSource).Nodup := by
  induction docs with
  | nil => intro seen; simp [firstOccAux]
  | cons d rest ih =>
    intro seen
    by_cases h : getSource d ∈ seen
    · simpa [firstOccAux, h] using ih seen
    · simp only [firstOccAux, h, if_false, List.map_cons]
      refine List.nodup_cons.mpr ⟨?_, ih (getSource d :: seen)⟩
      intro hmem
      exact firstOccAux_not_mem_seen rest (getSource d :: seen) _ hmem (List.mem_cons_self _ _)

theorem buildSources_eq_sourcesSpec (docs : List Doc) :
    buildSources docs = sourcesSpec docs := by
  simpa [buildSources, sourcesSpec, firstOcc] using buildSourcesAux_eq docs [] 1

theorem sourcesSpec_map_id (docs : List Doc) :
    (sourcesSpec docs).map Source.id = List.range' 1 (sourcesSpec docs).length := by
  simp [sourcesSpec, numberFrom_map_id, numberFrom_length]

theorem sourcesSpec_sources_nodup (docs : List Doc) :
    ((sourcesSpec docs).map Source.source).Nodup := by
  simpa [sourcesSpec, numberFrom_map_source, firstOcc] using firstOccAux_sources_nodup docs []

/-- C1: the claim says a query with tenant t1 never returns a chunk of
tenant t2 because `ask` scopes its `similarity_search` with a tenant filter.
The code does not: `ask` accepts no tenant argument and its search call
passes no filter, so on a store holding a t1 chunk and a t2 chunk the
returned sources include the t2 document, although the same search with the
t1 filter would have excluded it. -/
theorem ask_returns_foreign_tenant_chunk :
    (RAGChain.ask { vectorstore := tenantStore } constGen "q" "Auto").sources.map
        Source.source = ["docA.txt", "docB.txt"]
    ∧ similarity_search tenantStore "q" 3 (some "t1") = [tenantDocA]
    ∧ tenantDocB.user_id = some "t2" := by
  refine ⟨by decide, by decide, rfl⟩

/-- C2: when retrieval comes back empty, `ask` returns exactly the fixed
no-relevant-information answer with an empty source list, and issues no
chat-completion request. -/
theorem ask_empty_retrieval_short_circuit (c : RAGChain)
    (gen : String → String → String) (q lang : String)
    (h : similarity_search c.vectorstore q c.top_k none = []) :
    c.ask gen q lang =
      { answer := "No relevant information found.", sources := [], modelCalls := [] } := by
  simp [RAGChain.ask, h]

/-- Witness for C2 at the empty store. -/
theorem ask_empty_retrieval_short_circuit_witness :
    similarity_search { entries := [] } "q" 3 none = []
    ∧ RAGChain.ask { vectorstore := { entries := [] } } constGen "q" "Auto" =
        { answer := "No relevant information found.", sources := [], modelCalls := [] } :=
  ⟨rfl, ask_empty_retrieval_short_circuit { vectorstore := { entries := [] } } constGen "q" "Auto" rfl⟩

/-- C3: on the retrieval result [chunk of A, chunk of A, chunk of B] the
context block labels the second A chunk `[2]` and the B chunk `[3]`, but the
deduplicated sources list numbers B as id 2 and has no id 3: the entry with
id 2 does not carry the source of the chunk labelled `[2]`. -/
theorem citation_numbering_mismatch :
    build_context [chunkA1, chunkA2, chunkB] =
      "[1] Source: A.txt\nfirst chunk of A\n\n[2] Source: A.txt\nsecond chunk of A\n\n[3] Source: B.txt\nonly chunk of B"
    ∧ buildSources [chunkA1, chunkA2, chunkB] =
        [{ id := 1, source := "A.txt", preview := "first chunk of A" },
         { id := 2, source := "B.txt", preview := "only chunk of B" }]
    ∧ (∀ s ∈ buildSources [chunkA1, chunkA2, chunkB], s.id = 2 → s.source ≠ getSource chunkA2)
    ∧ (∀ s ∈ buildSources [chunkA1, chunkA2, chunkB], s.id ≠ 3) := by
  refine ⟨by decide, by decide, by decide, by decide⟩

/-- C4: on every non-empty retrieval result, the sources returned by `ask`
are exactly the spec-side construction (first-seen deduplication by source,
previews from the first occurrence truncated to 200 characters), the ids are
consecutive 1..n, and each distinct source appears exactly once. -/
theorem ask_sources_construction (c : RAGChain) (gen : String → String → String)
    (q lang : String) (h : similarity_search c.vectorstore q c.top_k none ≠ []) :
    (c.ask gen q lang).sources = sourcesSpec (similarity_search c.vectorstore q c.top_k none)
    ∧ (c.ask gen q lang).sources.map Source.id =
        List.range' 1 (c.ask gen q lang).sources.length
    ∧ ((c.ask gen q lang).sources.map Source.source).Nodup := by
  cases hd : similarity_search c.vectorstore q c.top_k none with
  | nil => exact absurd hd h
  | cons a as =>
    have hs : (c.ask gen q lang).sources = sourcesSpec (a :: as) := by
      simp [RAGChain.ask, hd, buildSources_eq_sourcesSpec]
    refine ⟨hs, ?_, ?_⟩
    · rw [hs]; exact sourcesSpec_map_id (a :: as)
    · rw [hs]; exact sourcesSpec_sources_nodup (a :: as)

/-- Witness for C4 on a three-chunk retrieval with a duplicated source. -/
theorem ask_sources_construction_witness :
    (RAGChain.ask { vectorstore := { entries := [chunkA1, chunkA2, chunkB] } } constGen
        "q" "Auto").sources =
      sourcesSpec (similarity_search { entries := [chunkA1, chunkA2, chunkB] } "q" 3 none) := by
  have h := ask_sources_construction
    { vectorstore := { entries := [chunkA1, chunkA2, chunkB] } } constGen "q" "Auto" (by decide)
  exact h.1

/-- C5: a valid upload follows the three-way bootstrap branch: absent
collection, create from the chunks; present but empty, create from the
chunks; non-empty, append the chunks — so the first upload bootstraps the
index and every later upload extends it. -/
theorem upload_bootstrap_policy (filename : String) (size : Nat) (chunks : List Doc)
    (uid : Option String) (hn : supportedFilename filename = true)
    (h0 : size ≠ 0) (hm : size ≤ MAX_FILE_SIZE) :
    (upload_document true filename size chunks uid none
        = (Except.ok chunks.length, some (tagChunks uid chunks)))
    ∧ (upload_document true filename size chunks uid (some [])
        = (Except.ok chunks.length, some (tagChunks uid chunks)))
    ∧ (∀ l : List Doc, l ≠ [] →
        upload_document true filename size chunks uid (some l)
          = (Except.ok chunks.length, some (l ++ tagChunks uid chunks)))
    ∧ (uploadIndexLogic none (tagChunks uid chunks)).1 = IndexAction.createNew
    ∧ (uploadIndexLogic (some []) (tagChunks uid chunks)).1 = IndexAction.createNew
    ∧ (∀ l : List Doc, l ≠ [] →
        (uploadIndexLogic (some l) (tagChunks uid chunks)).1 = IndexAction.addToExisting) := by
  have hlt : ¬ MAX_FILE_SIZE < size := Nat.not_lt.mpr hm
  refine ⟨?_, ?_, ?_, ?_, ?_, ?_⟩
  · simp [upload_document, hn, h0, hlt, uploadIndexLogic, load_vectorstore, RAGChain.init]
  · simp [upload_document, hn, h0, hlt, uploadIndexLogic, load_vectorstore, RAGChain.init]
  · intro l hl
    simp [upload_document, hn, h0, hlt, uploadIndexLogic, load_vectorstore, RAGChain.init,
      List.length_eq_zero, hl]
  · simp [uploadIndexLogic, load_vectorstore]
  · simp [uploadIndexLogic, load_vectorstore]
  · intro l hl
    simp [uploadIndexLogic, load_vectorstore, List.length_eq_zero, hl]

/-- Witness for C5: a second upload extends a non-empty collection. -/
theorem upload_bootstrap_policy_witness :
    upload_document true "doc.txt" 5 [chunkB] none (some [chunkA1])
      = (Except.ok 1, some [chunkA1, chunkB]) := by
  have h := (upload_bootstrap_policy "doc.txt" 5 [chunkB] none (by decide) (by decide)
    (by decide)).2.2.1 [chunkA1] (by decide)
  simpa [tagChunks] using h

/-- C6 counterexample: the claim says any explicit target language yields a
strictly-in-that-language directive, with the mirror instruction reserved to
Auto alone; but for the explicit language Français the code emits the mirror
instruction, not a strict directive, although Français is not Auto. -/
theorem langRule_francais_not_strict :
    langRule "Français" =
      "Answer in the same language as the user's question. If context is English and question is Russian, translate."
    ∧ langRule "Français" ≠ "Answer strictly in Français."
    ∧ ("Français" : String) ≠ "Auto" := by
  refine ⟨rfl, by decide, by decide⟩

/-- C6 amended: English and Русский yield their strict directives, every
other language value (Auto included) yields the mirror instruction, and on
every answered query the directive is injected as text into the system
prompt of the single chat-completion request. -/
theorem language_directive_injected (c : RAGChain) (gen : String → String → String)
    (q language : String) (h : similarity_search c.vectorstore q c.top_k none ≠ []) :
    ((language = "English" → langRule language = "Answer strictly in English.")
    ∧ (language = "Русский" → langRule language = "Отвечай строго на русском языке.")
    ∧ (language ≠ "English" → language ≠ "Русский" →
        langRule language =
          "Answer in the same language as the user's question. If context is English and question is Russian, translate."))
    ∧ (c.ask gen q language).modelCalls.map Prod.fst =
        [systemPromptHead ++ langRule language ++ systemPromptTail] := by
  cases hd : similarity_search c.vectorstore q c.top_k none with
  | nil => exact absurd hd h
  | cons a as =>
    constructor
    · refine ⟨fun h1 => by simp [langRule, h1], fun h1 => by simp [langRule, h1],
        fun h1 h2 => by simp [langRule, h1, h2]⟩
    · simp [RAGChain.ask, hd, systemPrompt]

/-- Witness for C6 at the explicit language Deutsch on a one-chunk store. -/
theorem language_directive_injected_witness :
    langRule "Deutsch" =
      "Answer in the same language as the user's question. If context is English and question is Russian, translate."
    ∧ (RAGChain.ask { vectorstore := { entries := [chunkA1] } } constGen
        "q" "Deutsch").modelCalls.map Prod.fst =
        [systemPromptHead ++ langRule "Deutsch" ++ systemPromptTail] := by
  have h := language_directive_injected { vectorstore := { entries := [chunkA1] } } constGen
    "q" "Deutsch" (by decide)
  exact ⟨h.1.2.2 (by decide) (by decide), h.2⟩

/-- C7: every upload whose file has an unsupported extension, is empty, or
exceeds the 30 MB maximum is rejected with the corresponding validation
error before the index logic runs, and the collection is unchanged. -/
theorem upload_validation_fail_fast (apiKey : Bool) (filename : String) (size : Nat)
    (chunks : List Doc) (uid : Option String) (storage : Storage) :
    (supportedFilename filename = false →
      upload_document apiKey filename size chunks uid storage
        = (Except.error UploadError.unsupportedType, storage))
    ∧ (supportedFilename filename = true → size = 0 →
      upload_document apiKey filename size chunks uid storage
        = (Except.error UploadError.emptyFile, storage))
    ∧ (supportedFilename filename = true → size ≠ 0 → MAX_FILE_SIZE < size →
      upload_document apiKey filename size chunks uid storage
        = (Except.error UploadError.tooLarge, storage)) := by
  refine ⟨fun h1 => ?_, fun h1 h2 => ?_, fun h1 h2 h3 => ?_⟩
  · simp [upload_document, h1]
  · simp [upload_document, h1, h2]
  · simp [upload_document, h1, h2, h3]

/-- Witness for C7: a .docx upload is rejected and the collection keeps its
single entry. -/
theorem upload_validation_fail_fast_witness :
    upload_document true "notes.docx" 5 [chunkB] none (some [chunkA1])
      = (Except.error UploadError.unsupportedType, some [chunkA1]) :=
  (upload_validation_fail_fast true "notes.docx" 5 [chunkB] none (some [chunkA1])).1 (by decide)

/-- C8: a query issued when no collection exists in storage and neither
global is initialised answers with the distinct no-documents condition,
leaves the globals as they were, and leaves storage without any collection
(no index is created on the query path). -/
theorem query_missing_index (apiKey : Bool) (gen : String → String → String)
    (question language : String) (g : AppGlobals)
    (h1 : g.vectorstore = none) (h2 : g.rag_chain = none) :
    query_rag apiKey none g gen question language = (QueryOutcome.noDocuments, g, none) := by
  simp [query_rag, h1, h2, load_vectorstore]

/-- Witness for C8 on a fresh process. -/
theorem query_missing_index_witness :
    query_rag true none { vectorstore := none, rag_chain := none } constGen "q" "Auto"
      = (QueryOutcome.noDocuments, { vectorstore := none, rag_chain := none }, none) :=
  query_missing_index true constGen "q" "Auto"
    { vectorstore := none, rag_chain := none } rfl rfl

/-- C9: when the OPENAI_API_KEY is unset, a valid upload fails with the
ValueError raised by the RAGChain constructor, yet it leaves behind exactly
the collection a successful upload would have left: the index mutation has
already been applied when the failure occurs. -/
theorem upload_mutates_despite_missing_key (filename : String) (size : Nat)
    (chunks : List Doc) (uid : Option String) (storage : Storage)
    (hn : supportedFilename filename = true) (h0 : size ≠ 0) (hm : size ≤ MAX_FILE_SIZE) :
    upload_document false filename size chunks uid storage
      = (Except.error UploadError.apiKeyMissing,
          some (uploadIndexLogic storage (tagChunks uid chunks)).2)
    ∧ (upload_document false filename size chunks uid storage).2
        = (upload_document true filename size chunks uid storage).2 := by
  have hlt : ¬ MAX_FILE_SIZE < size := Nat.not_lt.mpr hm
  constructor
  · simp [upload_document, hn, h0, hlt, RAGChain.init]
  · simp [upload_document, hn, h0, hlt, RAGChain.init]

/-- Witness for C9: the first upload without the key reports an error but
the collection now holds the chunk. -/
theorem upload_mutates_despite_missing_key_witness :
    upload_document false "doc.txt" 5 [chunkB] none none
      = (Except.error UploadError.apiKeyMissing, some [chunkB])
    ∧ (some [chunkB] : Storage) ≠ none := by
  have h := (upload_mutates_despite_missing_key "doc.txt" 5 [chunkB] none none
    (by decide) (by decide) (by decide)).1
  refine ⟨by simpa [tagChunks, uploadIndexLogic, load_vectorstore] using h, by simp⟩

/-- C10: a text message equal to one of the nine LANGUAGES entries is
recorded as the language selection and answered with a confirmation, and is
never forwarded to the backend query endpoint as a question. -/
theorem language_selection_shadows_questions (text : String) (stored : Option String)
    (h : text ∈ LANGUAGES) :
    handle_message text stored
      = (BotAction.setLanguage ("Language set to: " ++ text), some text)
    ∧ ∀ q l, (handle_message text stored).1 ≠ BotAction.queryBackend q l := by
  have he : handle_message text stored
      = (BotAction.setLanguage ("Language set to: " ++ text), some text) := by
    simp [handle_message, h]
  refine ⟨he, fun q l => ?_⟩
  rw [he]
  simp

/-- Witness for C10 at the LANGUAGES entry 中文. -/
theorem language_selection_shadows_questions_witness :
    handle_message "中文" none
      = (BotAction.setLanguage ("Language set to: " ++ "中文"), some "中文") :=
  (language_selection_shadows_questions "中文" none (by decide)).1

end RAGAssist
